import Mathlib

/-!
Verification development for the E-Voting-V2 frontend protocol logic.

The JavaScript source is shallowly embedded: each handler becomes a pure
Lean function from its inputs (component state, client clock, and the
server responses it observes) to the state updates, network calls and
error messages it produces.  JavaScript truthiness on optional strings
and numbers is modelled explicitly, and `a || b` fallbacks are modelled
by `jsOrStr` / `jsOrNat`.  The browser's SubtleCrypto SHA-256 digest is
external to the repository and is modelled as an abstract function
`String → String` returning the hex-encoded digest.
-/

namespace EVoting

/-- JavaScript truthiness of an optional string: `undefined`, `null`
and the empty string are falsy. -/
def jsTruthyStr (o : Option String) : Bool :=
  match o with
  | none => false
  | some s => !s.isEmpty

/-- JavaScript `x || d` for an optional string `x`: the empty string
falls through to the default. -/
def jsOrStr (o : Option String) (d : String) : String :=
  match o with
  | none => d
  | some s => if s.isEmpty then d else s

/-- JavaScript `x || d` for an optional number `x`: `0` is falsy and
falls through to the default. -/
def jsOrNat (o : Option Nat) (d : Nat) : Nat :=
  match o with
  | none => d
  | some n => if n = 0 then d else n

/-- JavaScript truthiness of an optional number: `undefined`, `null`
and `0` are falsy. -/
def jsTruthyNat (o : Option Nat) : Bool :=
  match o with
  | none => false
  | some n => n != 0

namespace Crypto

/-- The object returned by `generateVoterProofs` in `lib/crypto.js`:
all four hex digest strings. -/
structure VoterProofs where
  hashedAadhaar : String
  hashedVoterID : String
  hashedName : String
  voterProof : String
deriving DecidableEq, Repr

/-- `generateVoterProofs(aadhaar, voterId, name)` from `lib/crypto.js`.
The SubtleCrypto SHA-256 hex digest is passed in as the abstract
function `sha256`; the code hashes each credential and then hashes the
concatenation of the two hex digest strings. -/
def generateVoterProofs (sha256 : String → String)
    (aadhaar voterId name : String) : VoterProofs :=
  let hashedAadhaar := sha256 aadhaar
  let hashedVoterID := sha256 voterId
  let hashedName := sha256 name
  let voterProof := sha256 (hashedAadhaar ++ hashedVoterID)
  { hashedAadhaar := hashedAadhaar
    hashedVoterID := hashedVoterID
    hashedName := hashedName
    voterProof := voterProof }

/-- `generateVoteID()` from `lib/crypto.js`: the random 32-hex-char
string produced by `crypto.getRandomValues` is passed in as `randomHex`
and the function adds the `VOTE_` namespace. -/
def generateVoteID (randomHex : String) : String :=
  "VOTE_" ++ randomHex

/-- `generateBatchID()` from `lib/crypto.js`: `BATCH_` followed by the
client clock `Date.now()`. -/
def generateBatchID (now : Nat) : String :=
  "BATCH_" ++ toString now

/-- The base64 alphabet used by `btoa`. -/
def b64Alphabet : List Char :=
  "ABCDEFGHIJKLMNOPQRSTUVWXYZabcdefghijklmnopqrstuvwxyz0123456789+/".data

/-- Character of the base64 alphabet at index `n` (`A` past the end,
never reached for 6-bit values). -/
def b64Char (n : Nat) : Char :=
  (b64Alphabet.getD n 'A')

/-- `btoa` base64 encoding of a byte sequence, three bytes at a time
with `=` padding. -/
def base64Encode : List Nat → List Char
  | [] => []
  | [a] => [b64Char (a / 4), b64Char (a % 4 * 16), '=', '=']
  | [a, b] => [b64Char (a / 4), b64Char (a % 4 * 16 + b / 16),
      b64Char (b % 16 * 4), '=']
  | a :: b :: c :: rest =>
      b64Char (a / 4) :: b64Char (a % 4 * 16 + b / 16) ::
      b64Char (b % 16 * 4 + c / 64) :: b64Char (c % 64) ::
      base64Encode rest

/-- `btoa(s)` for an ASCII string: base64 of the code points. -/
def btoa (s : String) : String :=
  String.mk (base64Encode (s.data.map Char.toNat))

/-- `JSON.stringify({election, candidate, timestamp})` as built in
`createBlindedVote`, for strings that need no JSON escaping. -/
def jsonStringifyVoteData (election candidate : String)
    (timestamp : Nat) : String :=
  "\x7b\"election\":\"" ++ election ++ "\",\"candidate\":\"" ++ candidate
    ++ "\",\"timestamp\":" ++ toString timestamp ++ "\x7d"

/-- `createBlindedVote(electionId, candidateId)` from `lib/crypto.js`:
base64 of the JSON of the plain vote data, with the client clock
`Date.now()` passed in as `now`.  No blinding transform is applied. -/
def createBlindedVote (electionId candidateId : String) (now : Nat) :
    String :=
  btoa (jsonStringifyVoteData electionId candidateId now)

/-- Index of a character in the base64 alphabet (inverse of
`b64Char`). -/
def b64Val (c : Char) : Nat :=
  (b64Alphabet.indexOf c)

/-- `atob` base64 decoding back to bytes, the inverse of
`base64Encode`, honouring `=` padding. -/
def base64Decode : List Char → List Nat
  | c1 :: c2 :: '=' :: '=' :: _ =>
      [b64Val c1 * 4 + b64Val c2 / 16]
  | c1 :: c2 :: c3 :: '=' :: _ =>
      [b64Val c1 * 4 + b64Val c2 / 16, b64Val c2 % 16 * 16 + b64Val c3 / 4]
  | c1 :: c2 :: c3 :: c4 :: rest =>
      (b64Val c1 * 4 + b64Val c2 / 16) ::
      (b64Val c2 % 16 * 16 + b64Val c3 / 4) ::
      (b64Val c3 % 4 * 64 + b64Val c4) ::
      base64Decode rest
  | _ => []

/-- Does the second list start with the first? -/
def listStartsWith : List Char → List Char → Bool
  | [], _ => true
  | _ :: _, [] => false
  | m :: ms, s :: ss => m = s && listStartsWith ms ss

/-- Drop characters up to and including the first occurrence of the
marker; `none` when the marker does not occur. -/
def dropThroughMarker (marker : List Char) : List Char → Option (List Char)
  | [] => if marker.isEmpty then some [] else none
  | s :: ss =>
      if listStartsWith marker (s :: ss) then
        some ((s :: ss).drop marker.length)
      else
        dropThroughMarker marker ss

/-- A decoding function available to the authority: base64-decode the
envelope and read the JSON string field `candidate`.  Its existence
refutes the claim that the envelope hides the candidate choice. -/
def decodeCandidate (envelope : String) : Option String :=
  let bytes := base64Decode envelope.data
  let chars := bytes.map Char.ofNat
  match dropThroughMarker "\"candidate\":\"".data chars with
  | none => none
  | some rest => some (String.mk (rest.takeWhile (fun c => c ≠ '"')))

end Crypto

/-- The outcome a handler observes from an awaited `apiClient` call:
either the promise rejected (`thrown`, carrying
`err.response?.data?.message` when the server supplied one) or it
resolved with a response body. -/
inductive JsResult (α : Type) where
  | thrown (msg : Option String)
  | ok (body : α)
deriving DecidableEq, Repr

namespace Login

/-- The `sessionStorage` keys the login and voting flows use. -/
structure Storage where
  authToken : Option String
  sessionID : Option String
  sessionExpiry : Option Nat
deriving DecidableEq, Repr

/-- Body of the `/identity/verify-otp` response: only its `success`
flag is read. -/
structure OtpBody where
  success : Bool
deriving DecidableEq, Repr

/-- The session fields, as they appear either flat on the
`/ec/create-session` response body or nested under `data`. -/
structure SessionFields where
  sessionID : Option String
  authToken : Option String
  expiresAt : Option Nat
deriving DecidableEq, Repr

/-- Body of the `/ec/create-session` response: `success`, an optional
`message`, the session fields in flat placement, and an optional
nested `data` object. -/
structure SessionBody where
  success : Bool
  message : Option String
  flat : SessionFields
  data : Option SessionFields
deriving DecidableEq, Repr

/-- Body of the `/voters/:election/:proof` has-voted response. -/
structure VoterStatusBody where
  success : Bool
  hasVoted : Bool
deriving DecidableEq, Repr

/-- The server responses `handleVerifyOTP` can observe, in call
order. -/
structure VerifyOtpEnv where
  otpRes : JsResult OtpBody
  sessionRes : JsResult SessionBody
  voterStatusRes : JsResult VoterStatusBody
deriving DecidableEq, Repr

/-- Network calls issued by `handleVerifyOTP`, in order. -/
inductive LoginCall where
  | verifyOtp
  | createSession
  | voterStatus (voterProof : String)
deriving DecidableEq, Repr

/-- What a run of `handleVerifyOTP` produced: the calls it issued, the
error it surfaced, the resulting `sessionStorage`, and whether it
navigated to the voting page. -/
structure VerifyOtpResult where
  calls : List LoginCall
  error : Option String
  storage : Storage
  navigated : Bool
deriving DecidableEq, Repr

/-- `sessionRes.data.data || sessionRes.data`: JavaScript falls back to
the flat body only when no nested `data` object is present. -/
def pickSessionFields (body : SessionBody) : SessionFields :=
  match body.data with
  | some d => d
  | none => body.flat

/-- `handleVerifyOTP` from `VoterLogin.jsx`: verify the OTP, create a
session, validate the session fields, persist them to
`sessionStorage`, re-check has-voted with a fresh voter proof, and
navigate to the voting page.  `otp` is the six input boxes, `storage`
the `sessionStorage` before the run. -/
def handleVerifyOTP (sha256 : String → String)
    (aadhaar voterId verifiedName : String) (otp : List String)
    (storage : Storage) (env : VerifyOtpEnv) : VerifyOtpResult :=
  let otpString := String.join otp
  if otpString.length ≠ 6 then
    { calls := [], error := some "Please enter all 6 digits"
      storage := storage, navigated := false }
  else
    match env.otpRes with
    | .thrown m =>
        { calls := [.verifyOtp]
          error := some (jsOrStr m "Login failed. Please try again.")
          storage := storage, navigated := false }
    | .ok otpBody =>
      if !otpBody.success then
        { calls := [.verifyOtp]
          error := some "Invalid OTP. Please try again."
          storage := storage, navigated := false }
      else
        match env.sessionRes with
        | .thrown m =>
            { calls := [.verifyOtp, .createSession]
              error := some (jsOrStr m "Login failed. Please try again.")
              storage := storage, navigated := false }
        | .ok body =>
          if !body.success then
            { calls := [.verifyOtp, .createSession]
              error := some (jsOrStr body.message
                "Failed to create session. Please try again.")
              storage := storage, navigated := false }
          else
            let fields := pickSessionFields body
            if !jsTruthyStr fields.sessionID
                || !jsTruthyStr fields.authToken then
              { calls := [.verifyOtp, .createSession]
                error := some
                  "Backend error: Session data incomplete. Check backend logs."
                storage := storage, navigated := false }
            else
              let storage1 : Storage :=
                { authToken := fields.authToken
                  sessionID := fields.sessionID
                  sessionExpiry :=
                    if jsTruthyNat fields.expiresAt then fields.expiresAt
                    else storage.sessionExpiry }
              let proofs := Crypto.generateVoterProofs sha256 aadhaar
                voterId verifiedName
              match env.voterStatusRes with
              | .thrown m =>
                  { calls := [.verifyOtp, .createSession,
                      .voterStatus proofs.voterProof]
                    error := some (jsOrStr m "Login failed. Please try again.")
                    storage := storage1, navigated := false }
              | .ok vs =>
                if vs.success && vs.hasVoted then
                  { calls := [.verifyOtp, .createSession,
                      .voterStatus proofs.voterProof]
                    error := some "You have already voted in this election."
                    storage := storage1, navigated := false }
                else
                  { calls := [.verifyOtp, .createSession,
                      .voterStatus proofs.voterProof]
                    error := none
                    storage := storage1, navigated := true }

/-- Disabled condition of the Resend OTP button in `VoterLogin.jsx`:
`disabled={isResendingOTP || otpTimer > 540}` with `otpTimer` the
remaining seconds of the OTP window. -/
def resendDisabled (isResendingOTP : Bool) (otpTimer : Nat) : Bool :=
  isResendingOTP || decide (otpTimer > 540)

/-- Body of the `/identity/send-otp` response `data` object. -/
structure SendOtpData where
  expiryMinutes : Option Nat
  maskedEmail : Option String
deriving DecidableEq, Repr

/-- Body of the `/identity/send-otp` response. -/
structure SendOtpBody where
  success : Bool
  data : SendOtpData
deriving DecidableEq, Repr

/-- Result of `handleSendOTP` / `handleResendOTP`: the OTP expiry
instant the timer is driven from (when one was set), the six OTP
boxes, and the surfaced error. -/
structure SendOtpResult where
  otpExpiry : Option Nat
  otp : List String
  error : Option String
deriving DecidableEq, Repr

/-- `handleSendOTP` from `VoterLogin.jsx`: on success the OTP expiry
is `Date.now() + expiryMinutes * 60 * 1000`, with `expiryMinutes`
taken from the response (default 10).  `now` is the client clock,
`otp0` the OTP boxes before the run (left untouched). -/
def handleSendOTP (now : Nat) (otp0 : List String)
    (res : JsResult SendOtpBody) : SendOtpResult :=
  match res with
  | .thrown m =>
      { otpExpiry := none, otp := otp0
        error := some (jsOrStr m "Failed to send OTP") }
  | .ok body =>
    if body.success then
      { otpExpiry := some (now + jsOrNat body.data.expiryMinutes 10
          * 60 * 1000)
        otp := otp0, error := none }
    else
      { otpExpiry := none, otp := otp0
        error := some "Failed to send OTP. Please try again." }

/-- `handleResendOTP` from `VoterLogin.jsx`: it first clears the six
OTP boxes, then re-sends the OTP exactly as `handleSendOTP` does. -/
def handleResendOTP (now : Nat) (_otp0 : List String)
    (res : JsResult SendOtpBody) : SendOtpResult :=
  let cleared := ["", "", "", "", "", ""]
  match res with
  | .thrown m =>
      { otpExpiry := none, otp := cleared
        error := some (jsOrStr m "Failed to resend OTP") }
  | .ok body =>
    if body.success then
      { otpExpiry := some (now + jsOrNat body.data.expiryMinutes 10
          * 60 * 1000)
        otp := cleared, error := none }
    else
      { otpExpiry := none, otp := cleared
        error := some "Failed to resend OTP. Please try again." }

/-- The OTP countdown tick in `VoterLogin.jsx`:
`Math.max(0, Math.floor((otpExpiry - now) / 1000))` remaining
seconds (truncated subtraction models the `Math.max(0, _)`). -/
def otpRemaining (now otpExpiry : Nat) : Nat :=
  (otpExpiry - now) / 1000

end Login

namespace Dashboard

/-- The session countdown tick in `VotingDashboard.jsx`:
`Math.max(0, Math.floor((expiry - now) / 1000))` remaining seconds,
computed from the server-issued absolute `sessionExpiry` (truncated
subtraction models the `Math.max(0, _)`). -/
def sessionRemaining (now expiry : Nat) : Nat :=
  (expiry - now) / 1000

/-- Side effects a session-timer tick can perform. -/
inductive TimerAction where
  | clearTimer
  | alert (msg : String)
  | navigateHome
deriving DecidableEq, Repr

/-- One tick of the session-timer effect in `VotingDashboard.jsx`:
when the remaining time reaches zero it clears the interval, alerts
and navigates to `/`; the `sessionStorage` is returned unchanged in
either case, exactly as in the source. -/
def sessionTimerTick (now expiry : Nat) (storage : Login.Storage) :
    Nat × List TimerAction × Login.Storage :=
  let remaining := sessionRemaining now expiry
  if remaining = 0 then
    (remaining,
     [TimerAction.clearTimer,
      TimerAction.alert "⚠️ Session expired! Please login again.",
      TimerAction.navigateHome],
     storage)
  else
    (remaining, [], storage)

/-- The logout (and Return to Home) button in `VotingDashboard.jsx`:
`sessionStorage.removeItem` on `authToken` and `sessionID`. -/
def logoutStorage (storage : Login.Storage) : Login.Storage :=
  { storage with authToken := none, sessionID := none }

/-- The 401 branch of the response interceptor in `api/client.js`:
`sessionStorage.removeItem` on `authToken` and `sessionID`. -/
def on401Storage (storage : Login.Storage) : Login.Storage :=
  { storage with authToken := none, sessionID := none }

/-- Verification-token expiry set in `handleVote` step 5:
`Date.now() + 2 * 60 * 1000`, a fixed local duration added to the
client clock. -/
def verificationExpiryTime (now : Nat) : Nat :=
  now + 2 * 60 * 1000

/-- The nested `data` object of the blind-signature response. -/
structure SigData where
  blindSignature : Option String
deriving DecidableEq, Repr

/-- Body of the `/ec/request-blind-signature` response: `success`, an
optional `message`, `blindSignature` in flat placement, and an
optional nested `data` object. -/
structure SigBody where
  success : Bool
  message : Option String
  blindSignature : Option String
  data : Option SigData
deriving DecidableEq, Repr

/-- Body of the `/votes` cast-vote response. -/
structure VoteBody where
  success : Bool
  message : Option String
  verificationToken : Option String
deriving DecidableEq, Repr

/-- The server responses `handleVote` can observe, in call order. -/
structure VoteEnv where
  sigRes : JsResult SigBody
  voteRes : JsResult VoteBody
deriving DecidableEq, Repr

/-- Network calls issued by `handleVote`, in order.  The cast-vote
call carries the JSON payload as the ordered key/value list built in
the source. -/
inductive VoteCall where
  | requestBlindSignature (sessionID blindedVote nonce : String)
  | castVote (payload : List (String × String))
  | startReceiptPolling
deriving DecidableEq, Repr

/-- What a run of `handleVote` produced. -/
structure VoteResult where
  calls : List VoteCall
  error : Option String
  voteSuccess : Bool
  blindSignature : Option String
  verificationToken : Option String
  verificationExpiry : Option Nat
deriving DecidableEq, Repr

/-- `signatureData.blindSignature` after
`sigRes.data.data || sigRes.data`: the nested `data` object wins when
present, the flat body is the fallback. -/
def extractBlindSignature (body : SigBody) : Option String :=
  match body.data with
  | some d => d.blindSignature
  | none => body.blindSignature

/-- The vote payload object literal of `handleVote` step 4, as the
ordered field list sent to `/votes`. -/
def votePayload (voteID electionId candidateId blindSignature
    batchID : String) : List (String × String) :=
  [("voteID", voteID), ("electionId", electionId),
   ("candidateId", candidateId), ("blindSignature", blindSignature),
   ("batchID", batchID)]

/-- `handleVote` from `VotingDashboard.jsx`: guard on a selected
candidate and no in-flight vote, generate the crypto components,
request a blind signature, validate it, cast the vote, and record the
verification token.  `voteIDHex` and `nonce` stand for the values the
browser CSPRNG produced, `now` for the client clock. -/
def handleVote (selectedCandidate : Option String) (isVoting : Bool)
    (electionId sessionID : String) (voteIDHex nonce : String)
    (now : Nat) (env : VoteEnv) : VoteResult :=
  match selectedCandidate, isVoting with
  | none, _ =>
      { calls := [], error := none, voteSuccess := false
        blindSignature := none, verificationToken := none
        verificationExpiry := none }
  | some _, true =>
      { calls := [], error := none, voteSuccess := false
        blindSignature := none, verificationToken := none
        verificationExpiry := none }
  | some candidate, false =>
    let generatedVoteID := Crypto.generateVoteID voteIDHex
    let batchID := Crypto.generateBatchID now
    let blindedVote := Crypto.createBlindedVote electionId candidate now
    let sigCall := VoteCall.requestBlindSignature sessionID blindedVote
      nonce
    match env.sigRes with
    | .thrown m =>
        { calls := [sigCall]
          error := some (jsOrStr m "Vote failed")
          voteSuccess := false, blindSignature := none
          verificationToken := none, verificationExpiry := none }
    | .ok body =>
      if !body.success then
        { calls := [sigCall]
          error := some (jsOrStr body.message
            "Blind signature request failed")
          voteSuccess := false, blindSignature := none
          verificationToken := none, verificationExpiry := none }
      else
        let received := extractBlindSignature body
        if !jsTruthyStr received then
          { calls := [sigCall]
            error := some "Backend error: Blind signature not returned"
            voteSuccess := false, blindSignature := none
            verificationToken := none, verificationExpiry := none }
        else
          let sig := received.getD ""
          let payload := votePayload generatedVoteID electionId
            candidate sig batchID
          match env.voteRes with
          | .thrown m =>
              { calls := [sigCall, .castVote payload]
                error := some (jsOrStr m "Vote failed")
                voteSuccess := false, blindSignature := some sig
                verificationToken := none, verificationExpiry := none }
          | .ok vb =>
            if !vb.success then
              { calls := [sigCall, .castVote payload]
                error := some (jsOrStr vb.message
                  "Vote submission failed")
                voteSuccess := false, blindSignature := some sig
                verificationToken := none, verificationExpiry := none }
            else
              { calls := [sigCall, .castVote payload,
                  .startReceiptPolling]
                error := none, voteSuccess := true
                blindSignature := some sig
                verificationToken :=
                  if jsTruthyStr vb.verificationToken then
                    vb.verificationToken
                  else none
                verificationExpiry :=
                  if jsTruthyStr vb.verificationToken then
                    some (verificationExpiryTime now)
                  else none }

/-- A single receipt-poll response: a resolved HTTP 200 carrying the
body's `success` flag and data, or a rejection with an HTTP status
(404 while the receipt is pending). -/
inductive PollResp where
  | ok (success : Bool) (data : String)
  | err (status : Nat)
deriving DecidableEq, Repr

/-- State of the `fetchReceipt` poller in `VotingDashboard.jsx`:
`active` is whether `pollInterval` is still scheduled. -/
structure PollState where
  attempts : Nat
  active : Bool
  isPollingReceipt : Bool
  receipt : Option String
  error : Option String
deriving DecidableEq, Repr

/-- The poller state when `fetchReceipt` starts. -/
def pollInit : PollState :=
  { attempts := 0, active := true, isPollingReceipt := true
    receipt := none, error := none }

/-- One 2-second tick of the `fetchReceipt` interval: increment
`attempts`; a successful body stops the poll and stores the receipt; a
rejection stops the poll with a timeout error once
`attempts >= maxAttempts (= 15)`; a resolved body with
`success: false` falls through both branches and changes nothing
else. -/
def pollStep (s : PollState) (r : PollResp) : PollState :=
  if !s.active then s
  else
    let att := s.attempts + 1
    match r with
    | .ok true d =>
        { attempts := att, active := false, isPollingReceipt := false
          receipt := some d, error := s.error }
    | .ok false _ =>
        { s with attempts := att }
    | .err _ =>
        if 15 ≤ att then
          { attempts := att, active := false, isPollingReceipt := false
            receipt := s.receipt
            error := some
              "Receipt not available. Your vote was recorded but receipt generation timed out." }
        else
          { s with attempts := att }

/-- Run the poller over a sequence of server responses, one per
tick. -/
def pollRun (s : PollState) (rs : List PollResp) : PollState :=
  rs.foldl pollStep s

end Dashboard

/-- C1: proof derivation is deterministic and returns a voterProof
equal to the digest of the concatenated hex digests of aadhaar and
voterId — identical credential pairs always yield the identical
voterProof, for any digest function. -/
theorem generateVoterProofs_voterProof_shape
    (sha256 : String → String) (a1 v1 n1 a2 v2 n2 : String)
    (ha : a1 = a2) (hv : v1 = v2) :
    (Crypto.generateVoterProofs sha256 a1 v1 n1).voterProof
        = sha256 (sha256 a1 ++ sha256 v1) ∧
      (Crypto.generateVoterProofs sha256 a1 v1 n1).voterProof
        = (Crypto.generateVoterProofs sha256 a2 v2 n2).voterProof := by
  subst ha
  subst hv
  exact ⟨rfl, rfl⟩

/-- Witness for C1 at a concrete digest function and concrete
credentials. -/
theorem generateVoterProofs_voterProof_shape_witness :
    (Crypto.generateVoterProofs (fun s => "h" ++ s) "123412341234"
        "ABC1234567" "Asha").voterProof
      = (fun s => "h" ++ s) ((fun s => "h" ++ s) "123412341234"
          ++ (fun s => "h" ++ s) "ABC1234567") ∧
    (Crypto.generateVoterProofs (fun s => "h" ++ s) "123412341234"
        "ABC1234567" "Asha").voterProof
      = (Crypto.generateVoterProofs (fun s => "h" ++ s) "123412341234"
          "ABC1234567" "Other").voterProof :=
  generateVoterProofs_voterProof_shape (fun s => "h" ++ s)
    "123412341234" "ABC1234567" "Asha" "123412341234" "ABC1234567"
    "Other" rfl rfl

/-- C3: the blinded envelope is only base64 of plaintext JSON, so a
decoding function that recovers the candidate choice from the envelope
alone does exist — evaluated here at a concrete election, candidate
and timestamp. -/
theorem createBlindedVote_candidate_recoverable :
    Crypto.decodeCandidate
        (Crypto.createBlindedVote "election-1" "candidate-42"
          1705248600000)
      = some "candidate-42" := by decide

/-- Auxiliary for C5: as long as the poller is active, a tick whose
response resolves with `success: false` only increments the attempt
counter. -/
theorem pollRun_okFalse_active (n : Nat) :
    ∀ s : Dashboard.PollState, s.active = true →
      Dashboard.pollRun s
          (List.replicate n (Dashboard.PollResp.ok false ""))
        = { s with attempts := s.attempts + n } := by
  induction n with
  | zero => intro s _; simp [Dashboard.pollRun]
  | succ k ih =>
      intro s hs
      have hstep : Dashboard.pollStep s (Dashboard.PollResp.ok false "")
          = { s with attempts := s.attempts + 1 } := by
        simp [Dashboard.pollStep, hs]
      calc Dashboard.pollRun s
            (List.replicate (k + 1) (Dashboard.PollResp.ok false ""))
          = Dashboard.pollRun
              (Dashboard.pollStep s (Dashboard.PollResp.ok false ""))
              (List.replicate k (Dashboard.PollResp.ok false "")) := by
            simp [Dashboard.pollRun, List.replicate_succ]
        _ = { s with attempts := s.attempts + 1 + k } := by
            rw [hstep, ih { s with attempts := s.attempts + 1 } hs]
        _ = { s with attempts := s.attempts + (k + 1) } := by
            have harith : s.attempts + 1 + k = s.attempts + (k + 1) := by
              omega
            rw [harith]

/-- C5 (code behaviour at the failing input): when every poll attempt
resolves with HTTP 200 and a body whose `success` flag is false, the
`fetchReceipt` interval is never cleared — after any number `n` of
ticks the poller is still active with `n` attempts and no timeout
error, so the 15-attempt budget never terminates it. -/
theorem fetchReceipt_unbounded_on_success_false (n : Nat) :
    Dashboard.pollRun Dashboard.pollInit
        (List.replicate n (Dashboard.PollResp.ok false ""))
      = { attempts := n, active := true, isPollingReceipt := true
          receipt := none, error := none } := by
  have h := pollRun_okFalse_active n Dashboard.pollInit rfl
  simpa [Dashboard.pollInit] using h

/-- C6 counterexample: with no resend in flight and 300 seconds (five
minutes) remaining — far outside the final 60 seconds of the window —
the Resend OTP button is already enabled. -/
theorem resend_enabled_outside_final_minute :
    Login.resendDisabled false 300 = false ∧ (60 : Nat) < 300 := by
  decide

/-- C6 amended: resend is disabled exactly while more than 540 seconds
(nine minutes) remain — i.e. it is allowed during the final nine
minutes of the ten-minute window, not only the final 60 seconds — and
a successful resend clears the six OTP boxes and resets the expiry to
the full server-supplied window (`now + expiryMinutes * 60 * 1000`,
default ten minutes). -/
theorem resend_threshold_and_reset (t now : Nat) (otp0 : List String)
    (body : Login.SendOtpBody) (hs : body.success = true) :
    (Login.resendDisabled false t = true ↔ 540 < t) ∧
      Login.handleResendOTP now otp0 (JsResult.ok body)
        = { otpExpiry :=
              some (now + jsOrNat body.data.expiryMinutes 10 * 60 * 1000)
            otp := ["", "", "", "", "", ""], error := none } := by
  constructor
  · simp [Login.resendDisabled]
  · simp [Login.handleResendOTP, hs]

/-- Witness for C6 amended: ten minutes of budget remaining keeps
resend disabled, and a successful resend with the default ten-minute
window resets the expiry to `now + 600000`. -/
theorem resend_threshold_and_reset_witness :
    (Login.resendDisabled false 600 = true ↔ 540 < 600) ∧
      Login.handleResendOTP 1000 ["1", "2", "3", "4", "5", "6"]
          (JsResult.ok { success := true, data := { expiryMinutes := some 10, maskedEmail := none } })
        = { otpExpiry := some (1000 + jsOrNat (some 10) 10 * 60 * 1000)
            otp := ["", "", "", "", "", ""], error := none } :=
  resend_threshold_and_reset 600 1000 ["1", "2", "3", "4", "5", "6"]
    { success := true, data := { expiryMinutes := some 10, maskedEmail := none } } rfl

/-- C7 counterexample: with the server data held fixed, both the OTP
expiry and the verification-token expiry change when only the client
clock changes — they are client-clock-plus-duration values, not
server-issued absolute timestamps; in particular the verification
expiry is the fixed local duration 120000 ms past the client clock. -/
theorem timer_expiry_not_server_absolute :
    Dashboard.verificationExpiryTime 0 = 120000 ∧
      Dashboard.verificationExpiryTime 0
        ≠ Dashboard.verificationExpiryTime 60000 ∧
      (Login.handleSendOTP 0 ["", "", "", "", "", ""]
            (JsResult.ok { success := true, data := { expiryMinutes := some 10, maskedEmail := none } })).otpExpiry
        ≠ (Login.handleSendOTP 60000 ["", "", "", "", "", ""]
            (JsResult.ok { success := true, data := { expiryMinutes := some 10, maskedEmail := none } })).otpExpiry := by
  refine ⟨rfl, by decide, by decide⟩

/-- C7 amended: only the session countdown is driven by a server-issued
absolute expiry (its remaining time hits zero exactly when the client
clock passes `expiresAt`); the OTP expiry is the client clock plus the
server-issued relative `expiryMinutes` (default 10), and the
verification-token expiry is the client clock plus a fixed local
two-minute duration. -/
theorem timer_expiry_computations (now e : Nat) (otp0 : List String)
    (body : Login.SendOtpBody) (hs : body.success = true) :
    (Login.handleSendOTP now otp0 (JsResult.ok body)).otpExpiry
        = some (now + jsOrNat body.data.expiryMinutes 10 * 60 * 1000) ∧
      Dashboard.verificationExpiryTime now = now + 2 * 60 * 1000 ∧
      (Dashboard.sessionRemaining now e = 0 ↔ e < now + 1000) := by
  refine ⟨by simp [Login.handleSendOTP, hs], rfl, ?_⟩
  simp only [Dashboard.sessionRemaining]
  omega

/-- Witness for C7 amended at a concrete clock and expiry. -/
theorem timer_expiry_computations_witness :
    (Login.handleSendOTP 500 ["", "", "", "", "", ""]
          (JsResult.ok { success := true, data := { expiryMinutes := some 10, maskedEmail := none } })).otpExpiry
        = some (500 + jsOrNat (some 10) 10 * 60 * 1000) ∧
      Dashboard.verificationExpiryTime 500 = 500 + 2 * 60 * 1000 ∧
      (Dashboard.sessionRemaining 500 1200 = 0 ↔ 1200 < 500 + 1000) :=
  timer_expiry_computations 500 1200 ["", "", "", "", "", ""]
    { success := true, data := { expiryMinutes := some 10, maskedEmail := none } } rfl

/-- C8 counterexample: when the session expiry is reached the timer
tick navigates away, but the `sessionStorage` it returns still holds
the authToken and sessionID — the stored session data is not
cleared on expiry. -/
theorem session_expiry_keeps_storage :
    Dashboard.TimerAction.navigateHome
        ∈ (Dashboard.sessionTimerTick 10000 5000
            { authToken := some "tok", sessionID := some "sid"
              sessionExpiry := some 5000 }).2.1 ∧
      (Dashboard.sessionTimerTick 10000 5000
          { authToken := some "tok", sessionID := some "sid"
            sessionExpiry := some 5000 }).2.2.authToken = some "tok" ∧
      (Dashboard.sessionTimerTick 10000 5000
          { authToken := some "tok", sessionID := some "sid"
            sessionExpiry := some 5000 }).2.2.sessionID = some "sid" := by
  decide

/-- C8 amended: reaching the session expiry forces the flow out of the
voting page (clear timer, alert, navigate home) but leaves
`sessionStorage` unchanged; the stored authToken and sessionID are
cleared on logout and on an unauthorized (401) response. -/
theorem session_storage_lifecycle (now e : Nat) (st : Login.Storage)
    (h : Dashboard.sessionRemaining now e = 0) :
    Dashboard.sessionTimerTick now e st
        = (0, [Dashboard.TimerAction.clearTimer,
            Dashboard.TimerAction.alert
              "⚠️ Session expired! Please login again.",
            Dashboard.TimerAction.navigateHome], st) ∧
      (Dashboard.logoutStorage st).authToken = none ∧
      (Dashboard.logoutStorage st).sessionID = none ∧
      (Dashboard.on401Storage st).authToken = none ∧
      (Dashboard.on401Storage st).sessionID = none := by
  refine ⟨?_, rfl, rfl, rfl, rfl⟩
  simp [Dashboard.sessionTimerTick, h]

/-- Witness for C8 amended at a concrete expired session. -/
theorem session_storage_lifecycle_witness :
    Dashboard.sessionTimerTick 10000 5000
          { authToken := some "tok", sessionID := some "sid"
            sessionExpiry := some 5000 }
        = (0, [Dashboard.TimerAction.clearTimer,
            Dashboard.TimerAction.alert
              "⚠️ Session expired! Please login again.",
            Dashboard.TimerAction.navigateHome],
           { authToken := some "tok", sessionID := some "sid"
             sessionExpiry := some 5000 }) ∧
      (Dashboard.logoutStorage
          { authToken := some "tok", sessionID := some "sid"
            sessionExpiry := some 5000 }).authToken = none ∧
      (Dashboard.logoutStorage
          { authToken := some "tok", sessionID := some "sid"
            sessionExpiry := some 5000 }).sessionID = none ∧
      (Dashboard.on401Storage
          { authToken := some "tok", sessionID := some "sid"
            sessionExpiry := some 5000 }).authToken = none ∧
      (Dashboard.on401Storage
          { authToken := some "tok", sessionID := some "sid"
            sessionExpiry := some 5000 }).sessionID = none :=
  session_storage_lifecycle 10000 5000
    { authToken := some "tok", sessionID := some "sid"
      sessionExpiry := some 5000 } rfl

/-- The vote payload's field names: exactly the five anonymous fields,
none of the identity digests. -/
theorem votePayload_keys (a b c d e : String) :
    (Dashboard.votePayload a b c d e).map Prod.fst
        = ["voteID", "electionId", "candidateId", "blindSignature",
           "batchID"] ∧
      "hashedAadhaar" ∉ (Dashboard.votePayload a b c d e).map Prod.fst ∧
      "hashedVoterID" ∉ (Dashboard.votePayload a b c d e).map Prod.fst ∧
      "hashedName" ∉ (Dashboard.votePayload a b c d e).map Prod.fst ∧
      "voterProof" ∉ (Dashboard.votePayload a b c d e).map Prod.fst := by
  refine ⟨rfl, ?_, ?_, ?_, ?_⟩ <;> simp [Dashboard.votePayload]

/-- C2: in every execution of `handleVote`, any payload sent to the
cast-vote endpoint consists exactly of the fields voteID, electionId,
candidateId, blindSignature and batchID, and never contains
hashedAadhaar, hashedVoterID, hashedName or voterProof. -/
theorem handleVote_payload_fields (sc : Option String) (iv : Bool)
    (e s vh nn : String) (now : Nat) (env : Dashboard.VoteEnv)
    (p : List (String × String))
    (h : Dashboard.VoteCall.castVote p
      ∈ (Dashboard.handleVote sc iv e s vh nn now env).calls) :
    p.map Prod.fst
        = ["voteID", "electionId", "candidateId", "blindSignature",
           "batchID"] ∧
      "hashedAadhaar" ∉ p.map Prod.fst ∧
      "hashedVoterID" ∉ p.map Prod.fst ∧
      "hashedName" ∉ p.map Prod.fst ∧
      "voterProof" ∉ p.map Prod.fst := by
  rcases env with ⟨sigRes, voteRes⟩
  rcases sc with _ | c
  · simp [Dashboard.handleVote] at h
  · cases iv
    · rcases sigRes with m | body
      · simp [Dashboard.handleVote] at h
      · by_cases hb : body.success = true
        · by_cases hr : jsTruthyStr (Dashboard.extractBlindSignature body)
              = true
          · rcases voteRes with m2 | vb
            · simp [Dashboard.handleVote, hb, hr] at h
              rw [h]
              exact votePayload_keys _ _ _ _ _
            · by_cases hv : vb.success = true
              · simp [Dashboard.handleVote, hb, hr, hv] at h
                rw [h]
                exact votePayload_keys _ _ _ _ _
              · simp [Dashboard.handleVote, hb, hr, hv] at h
                rw [h]
                exact votePayload_keys _ _ _ _ _
          · simp [Dashboard.handleVote, hb, hr] at h
        · simp [Dashboard.handleVote, hb] at h
    · simp [Dashboard.handleVote] at h

/-- Witness for C2 at a concrete run in which the cast-vote call is
issued. -/
theorem handleVote_payload_fields_witness :
    (Dashboard.votePayload (Crypto.generateVoteID "abcd") "e-1" "cand-1"
          "sig-1" (Crypto.generateBatchID 7)).map Prod.fst
        = ["voteID", "electionId", "candidateId", "blindSignature",
           "batchID"] ∧
      "hashedAadhaar" ∉ (Dashboard.votePayload
        (Crypto.generateVoteID "abcd") "e-1" "cand-1" "sig-1"
        (Crypto.generateBatchID 7)).map Prod.fst ∧
      "hashedVoterID" ∉ (Dashboard.votePayload
        (Crypto.generateVoteID "abcd") "e-1" "cand-1" "sig-1"
        (Crypto.generateBatchID 7)).map Prod.fst ∧
      "hashedName" ∉ (Dashboard.votePayload
        (Crypto.generateVoteID "abcd") "e-1" "cand-1" "sig-1"
        (Crypto.generateBatchID 7)).map Prod.fst ∧
      "voterProof" ∉ (Dashboard.votePayload
        (Crypto.generateVoteID "abcd") "e-1" "cand-1" "sig-1"
        (Crypto.generateBatchID 7)).map Prod.fst :=
  handleVote_payload_fields (some "cand-1") false "e-1" "s-1" "abcd"
    "n-1" 7
    { sigRes := JsResult.ok { success := true, message := none, blindSignature := some "sig-1", data := none }
      voteRes := JsResult.ok { success := true, message := none, verificationToken := none } }
    (Dashboard.votePayload (Crypto.generateVoteID "abcd") "e-1" "cand-1"
      "sig-1" (Crypto.generateBatchID 7))
    (by decide)

/-- C4: a cast-vote call is issued only when the blind-signature
request resolved successfully with a non-empty (truthy) blindSignature,
and then only after the signature request (the head of the call list);
a thrown signature request, a declined one (`success: false`), or a
successful response lacking a truthy blindSignature in its selected
placement each abort the flow with no cast-vote call, the last with
the fatal response-shape message, which differs from the default
decline message. -/
theorem handleVote_signature_gate (sc : Option String) (iv : Bool)
    (e s vh nn : String) (now : Nat) (env : Dashboard.VoteEnv) :
    (∀ p, Dashboard.VoteCall.castVote p
        ∈ (Dashboard.handleVote sc iv e s vh nn now env).calls →
      ∃ body, env.sigRes = JsResult.ok body ∧ body.success = true ∧
        jsTruthyStr (Dashboard.extractBlindSignature body) = true ∧
        (Dashboard.handleVote sc iv e s vh nn now env).calls.head?
          = some (Dashboard.VoteCall.requestBlindSignature s
              (Crypto.createBlindedVote e (sc.getD "") now) nn)) ∧
    (∀ m, env.sigRes = JsResult.thrown m →
      ∀ p, Dashboard.VoteCall.castVote p
        ∉ (Dashboard.handleVote sc iv e s vh nn now env).calls) ∧
    (∀ body, env.sigRes = JsResult.ok body → body.success = false →
      (∀ p, Dashboard.VoteCall.castVote p
        ∉ (Dashboard.handleVote sc iv e s vh nn now env).calls) ∧
      (sc ≠ none → iv = false →
        (Dashboard.handleVote sc iv e s vh nn now env).error
          = some (jsOrStr body.message "Blind signature request failed"))) ∧
    (∀ body, env.sigRes = JsResult.ok body → body.success = true →
      jsTruthyStr (Dashboard.extractBlindSignature body) = false →
      (∀ p, Dashboard.VoteCall.castVote p
        ∉ (Dashboard.handleVote sc iv e s vh nn now env).calls) ∧
      (sc ≠ none → iv = false →
        (Dashboard.handleVote sc iv e s vh nn now env).error
          = some "Backend error: Blind signature not returned")) ∧
    ("Backend error: Blind signature not returned"
      ≠ "Blind signature request failed") := by
  rcases env with ⟨sigRes, voteRes⟩
  refine ⟨?_, ?_, ?_, ?_, by decide⟩
  · intro p hp
    rcases sc with _ | c
    · simp [Dashboard.handleVote] at hp
    · cases iv
      · rcases sigRes with m | body
        · simp [Dashboard.handleVote] at hp
        · by_cases hb : body.success = true
          · by_cases hr : jsTruthyStr (Dashboard.extractBlindSignature
                body) = true
            · refine ⟨body, rfl, hb, hr, ?_⟩
              rcases voteRes with m2 | vb
              · simp [Dashboard.handleVote, hb, hr]
              · by_cases hv : vb.success = true <;>
                  simp [Dashboard.handleVote, hb, hr, hv]
            · simp [Dashboard.handleVote, hb, hr] at hp
          · simp [Dashboard.handleVote, hb] at hp
      · simp [Dashboard.handleVote] at hp
  · intro m hm p
    subst hm
    rcases sc with _ | c
    · simp [Dashboard.handleVote]
    · cases iv <;> simp [Dashboard.handleVote]
  · intro body hbody hfail
    subst hbody
    constructor
    · intro p
      rcases sc with _ | c
      · simp [Dashboard.handleVote]
      · cases iv <;> simp [Dashboard.handleVote, hfail]
    · intro hsc hiv
      subst hiv
      rcases sc with _ | c
      · exact absurd rfl hsc
      · simp [Dashboard.handleVote, hfail]
  · intro body hbody hsucc hmiss
    subst hbody
    constructor
    · intro p
      rcases sc with _ | c
      · simp [Dashboard.handleVote]
      · cases iv <;> simp [Dashboard.handleVote, hsucc, hmiss]
    · intro hsc hiv
      subst hiv
      rcases sc with _ | c
      · exact absurd rfl hsc
      · simp [Dashboard.handleVote, hsucc, hmiss]

/-- Witness for C4: a successful signature response whose
blindSignature is the empty string (present in flat placement, falsy)
surfaces the fatal response-shape message. -/
theorem handleVote_signature_gate_witness :
    (Dashboard.handleVote (some "cand-1") false "e-1" "s-1" "ab" "n-1" 7
        { sigRes := JsResult.ok { success := true, message := none, blindSignature := some "", data := none }
          voteRes := JsResult.ok { success := true, message := none, verificationToken := none } }).error
      = some "Backend error: Blind signature not returned" :=
  ((handleVote_signature_gate (some "cand-1") false "e-1" "s-1" "ab"
        "n-1" 7
        { sigRes := JsResult.ok { success := true, message := none, blindSignature := some "", data := none }
          voteRes := JsResult.ok { success := true, message := none, verificationToken := none } }).2.2.2.1
      { success := true, message := none, blindSignature := some "", data := none } rfl rfl rfl).2 (by simp) rfl

/-- C9: a create-session success response whose selected placement
lacks a truthy sessionID or authToken surfaces the distinct
fatal-configuration message, writes nothing to `sessionStorage`, and
does not navigate to the voting page; the message differs from both
authentication-failure messages. -/
theorem handleVerifyOTP_missing_session_fields
    (sha256 : String → String) (aadhaar voterId verifiedName : String)
    (otp : List String) (st : Login.Storage) (env : Login.VerifyOtpEnv)
    (body : Login.SessionBody)
    (hlen : (String.join otp).length = 6)
    (hotp : env.otpRes = JsResult.ok { success := true })
    (hsess : env.sessionRes = JsResult.ok body)
    (hsucc : body.success = true)
    (hmiss : jsTruthyStr (Login.pickSessionFields body).sessionID = false
      ∨ jsTruthyStr (Login.pickSessionFields body).authToken = false) :
    (Login.handleVerifyOTP sha256 aadhaar voterId verifiedName otp st
        env).error
        = some "Backend error: Session data incomplete. Check backend logs." ∧
      (Login.handleVerifyOTP sha256 aadhaar voterId verifiedName otp st
        env).storage = st ∧
      (Login.handleVerifyOTP sha256 aadhaar voterId verifiedName otp st
        env).navigated = false ∧
      ("Backend error: Session data incomplete. Check backend logs."
        ≠ "Invalid OTP. Please try again.") ∧
      ("Backend error: Session data incomplete. Check backend logs."
        ≠ "Failed to create session. Please try again.") := by
  rcases env with ⟨otpRes, sessionRes, voterStatusRes⟩
  simp only at hotp hsess
  subst hotp
  subst hsess
  rcases hmiss with h | h <;>
    refine ⟨?_, ?_, ?_, by decide, by decide⟩ <;>
    simp [Login.handleVerifyOTP, hlen, hsucc, h]

/-- Witness for C9: a success response carrying an authToken but no
sessionID in flat placement is rejected without storage writes or
navigation. -/
theorem handleVerifyOTP_missing_session_fields_witness :
    (Login.handleVerifyOTP (fun s => s) "a" "v" "nm"
        ["1", "2", "3", "4", "5", "6"]
        { authToken := none, sessionID := none, sessionExpiry := none }
        { otpRes := JsResult.ok { success := true }
          sessionRes := JsResult.ok { success := true, message := none, flat := { sessionID := none, authToken := some "tok", expiresAt := none }, data := none }
          voterStatusRes := JsResult.ok { success := true, hasVoted := false } }).error
        = some "Backend error: Session data incomplete. Check backend logs." ∧
      (Login.handleVerifyOTP (fun s => s) "a" "v" "nm"
        ["1", "2", "3", "4", "5", "6"]
        { authToken := none, sessionID := none, sessionExpiry := none }
        { otpRes := JsResult.ok { success := true }
          sessionRes := JsResult.ok { success := true, message := none, flat := { sessionID := none, authToken := some "tok", expiresAt := none }, data := none }
          voterStatusRes := JsResult.ok { success := true, hasVoted := false } }).storage
        = { authToken := none, sessionID := none, sessionExpiry := none } ∧
      (Login.handleVerifyOTP (fun s => s) "a" "v" "nm"
        ["1", "2", "3", "4", "5", "6"]
        { authToken := none, sessionID := none, sessionExpiry := none }
        { otpRes := JsResult.ok { success := true }
          sessionRes := JsResult.ok { success := true, message := none, flat := { sessionID := none, authToken := some "tok", expiresAt := none }, data := none }
          voterStatusRes := JsResult.ok { success := true, hasVoted := false } }).navigated = false ∧
      ("Backend error: Session data incomplete. Check backend logs."
        ≠ "Invalid OTP. Please try again.") ∧
      ("Backend error: Session data incomplete. Check backend logs."
        ≠ "Failed to create session. Please try again.") :=
  handleVerifyOTP_missing_session_fields (fun s => s) "a" "v" "nm"
    ["1", "2", "3", "4", "5", "6"]
    { authToken := none, sessionID := none, sessionExpiry := none }
    { otpRes := JsResult.ok { success := true }
      sessionRes := JsResult.ok { success := true, message := none, flat := { sessionID := none, authToken := some "tok", expiresAt := none }, data := none }
      voterStatusRes := JsResult.ok { success := true, hasVoted := false } }
    { success := true, message := none, flat := { sessionID := none, authToken := some "tok", expiresAt := none }, data := none }
    (by decide) rfl rfl rfl (Or.inl rfl)

/-- C10: when session creation succeeds and only the final has-voted
re-check reports hasVoted, the flow stops with the already-voted error
and no navigation, but the authToken and sessionID written to
`sessionStorage` earlier in the same run remain stored. -/
theorem handleVerifyOTP_already_voted_keeps_session
    (sha256 : String → String) (aadhaar voterId verifiedName : String)
    (otp : List String) (st : Login.Storage) (env : Login.VerifyOtpEnv)
    (body : Login.SessionBody)
    (hlen : (String.join otp).length = 6)
    (hotp : env.otpRes = JsResult.ok { success := true })
    (hsess : env.sessionRes = JsResult.ok body)
    (hsucc : body.success = true)
    (hsid : jsTruthyStr (Login.pickSessionFields body).sessionID = true)
    (htok : jsTruthyStr (Login.pickSessionFields body).authToken = true)
    (hvs : env.voterStatusRes
      = JsResult.ok { success := true, hasVoted := true }) :
    (Login.handleVerifyOTP sha256 aadhaar voterId verifiedName otp st
        env).error = some "You have already voted in this election." ∧
      (Login.handleVerifyOTP sha256 aadhaar voterId verifiedName otp st
        env).navigated = false ∧
      (Login.handleVerifyOTP sha256 aadhaar voterId verifiedName otp st
        env).storage.authToken
        = (Login.pickSessionFields body).authToken ∧
      (Login.handleVerifyOTP sha256 aadhaar voterId verifiedName otp st
        env).storage.sessionID
        = (Login.pickSessionFields body).sessionID := by
  rcases env with ⟨otpRes, sessionRes, voterStatusRes⟩
  simp only at hotp hsess hvs
  subst hotp
  subst hsess
  subst hvs
  refine ⟨?_, ?_, ?_, ?_⟩ <;>
    simp [Login.handleVerifyOTP, hlen, hsucc, hsid, htok]

/-- Witness for C10: a concrete run in which session data is stored
and the final has-voted re-check then reports hasVoted. -/
theorem handleVerifyOTP_already_voted_keeps_session_witness :
    (Login.handleVerifyOTP (fun s => s) "a" "v" "nm"
        ["1", "2", "3", "4", "5", "6"]
        { authToken := none, sessionID := none, sessionExpiry := none }
        { otpRes := JsResult.ok { success := true }
          sessionRes := JsResult.ok { success := true, message := none, flat := { sessionID := some "sid", authToken := some "tok", expiresAt := some 99 }, data := none }
          voterStatusRes := JsResult.ok { success := true, hasVoted := true } }).error
        = some "You have already voted in this election." ∧
      (Login.handleVerifyOTP (fun s => s) "a" "v" "nm"
        ["1", "2", "3", "4", "5", "6"]
        { authToken := none, sessionID := none, sessionExpiry := none }
        { otpRes := JsResult.ok { success := true }
          sessionRes := JsResult.ok { success := true, message := none, flat := { sessionID := some "sid", authToken := some "tok", expiresAt := some 99 }, data := none }
          voterStatusRes := JsResult.ok { success := true, hasVoted := true } }).navigated = false ∧
      (Login.handleVerifyOTP (fun s => s) "a" "v" "nm"
        ["1", "2", "3", "4", "5", "6"]
        { authToken := none, sessionID := none, sessionExpiry := none }
        { otpRes := JsResult.ok { success := true }
          sessionRes := JsResult.ok { success := true, message := none, flat := { sessionID := some "sid", authToken := some "tok", expiresAt := some 99 }, data := none }
          voterStatusRes := JsResult.ok { success := true, hasVoted := true } }).storage.authToken
        = (Login.pickSessionFields { success := true, message := none, flat := { sessionID := some "sid", authToken := some "tok", expiresAt := some 99 }, data := none }).authToken ∧
      (Login.handleVerifyOTP (fun s => s) "a" "v" "nm"
        ["1", "2", "3", "4", "5", "6"]
        { authToken := none, sessionID := none, sessionExpiry := none }
        { otpRes := JsResult.ok { success := true }
          sessionRes := JsResult.ok { success := true, message := none, flat := { sessionID := some "sid", authToken := some "tok", expiresAt := some 99 }, data := none }
          voterStatusRes := JsResult.ok { success := true, hasVoted := true } }).storage.sessionID
        = (Login.pickSessionFields { success := true, message := none, flat := { sessionID := some "sid", authToken := some "tok", expiresAt := some 99 }, data := none }).sessionID :=
  handleVerifyOTP_already_voted_keeps_session (fun s => s) "a" "v" "nm"
    ["1", "2", "3", "4", "5", "6"]
    { authToken := none, sessionID := none, sessionExpiry := none }
    { otpRes := JsResult.ok { success := true }
      sessionRes := JsResult.ok { success := true, message := none, flat := { sessionID := some "sid", authToken := some "tok", expiresAt := some 99 }, data := none }
      voterStatusRes := JsResult.ok { success := true, hasVoted := true } }
    { success := true, message := none, flat := { sessionID := some "sid", authToken := some "tok", expiresAt := some 99 }, data := none }
    (by decide) rfl rfl rfl rfl rfl rfl

end EVoting
